import Mathlib

set_option maxHeartbeats 1000000

/-!
Shallow embedding of the linux-server MCP gateway (src/index.ts): the
JavaScript string and number primitives it relies on, the credential
resolver `getSSHConfig`, the connection cache logic of
`getSSHConnection`, the stream handling of `executeRemoteCommand`, the
shell command built by the `write_file` tool together with a POSIX
double-quote expansion model, the `system_monitor` command tables and
`Promise.all` result assembly, and the `CallTool` dispatcher with its
try/catch boundary.
-/

/-- JS `String(x)` coercion applied to a possibly-missing string argument:
`String(undefined)` is the literal string "undefined". -/
def jsString : Option String → String
  | none => "undefined"
  | some s => s

/-- JS `x || d` on a possibly-missing string `x`: `undefined` and the
empty string are falsy and select the default. -/
def jsOr (x : Option String) (d : String) : String :=
  match x with
  | none => d
  | some s => if s = "" then d else s

/-- JS `Boolean(x)` on a possibly-missing boolean argument. -/
def jsBool : Option Bool → Bool
  | none => false
  | some b => b

/-- Value of the longest leading run of decimal digits; `none` when there
is no leading digit, which models a NaN result of `parseInt`. -/
def leadingDigits (cs : List Char) : Option Nat :=
  let ds := cs.takeWhile Char.isDigit
  if ds.isEmpty then none
  else some (ds.foldl (fun acc c => acc * 10 + (c.toNat - 48)) 0)

/-- JS `parseInt(s)` with the default radix 10: skip leading whitespace,
accept an optional sign, parse the longest digit run; `none` models NaN. -/
def jsParseInt (s : String) : Option Int :=
  let cs := s.toList.dropWhile (fun c => c = ' ' ∨ c = '\t' ∨ c = '\n' ∨ c = '\r')
  match cs with
  | '-' :: rest => (leadingDigits rest).map (fun n => -(n : Int))
  | '+' :: rest => (leadingDigits rest).map (fun n => (n : Int))
  | _ => (leadingDigits cs).map (fun n => (n : Int))

/-- Port resolution from src/index.ts line 43:
`parseInt(process.env.SSH_PORT || '22')`. -/
def resolvePort (sshPort : Option String) : Option Int :=
  jsParseInt (jsOr sshPort "22")

/-- The six SSH_* environment variables read by getSSHConfig; `none`
models an unset variable. -/
structure SSHEnv where
  host : Option String
  port : Option String
  username : Option String
  password : Option String
  privateKeyPath : Option String
  passphrase : Option String
deriving DecidableEq

/-- The SSHConfig record built by getSSHConfig; `port = none` models NaN. -/
structure SSHConfig where
  host : String
  port : Option Int
  username : String
  password : Option String
  privateKey : Option String
  passphrase : Option String
deriving DecidableEq

def isErr {ε α : Type} : Except ε α → Bool
  | Except.error _ => true
  | Except.ok _ => false

/-- getSSHConfig (src/index.ts lines 41-75). JS truthiness for the
environment strings: unset and empty are both falsy. Reading the private
key file is passed in as `readKeyFile`. -/
def getSSHConfig (env : SSHEnv) (readKeyFile : String → Except String String) :
    Except String SSHConfig :=
  let host := env.host.getD ""
  let port := resolvePort env.port
  let username := env.username.getD ""
  let password := env.password.getD ""
  let privateKeyPath := env.privateKeyPath.getD ""
  let passphrase := env.passphrase.getD ""
  if host = "" ∨ username = "" then
    Except.error "SSH_HOST and SSH_USERNAME environment variables are required"
  else if password ≠ "" then
    Except.ok ⟨host, port, username, some password, none, none⟩
  else if privateKeyPath ≠ "" then
    match readKeyFile privateKeyPath with
    | Except.error e =>
        Except.error ("Failed to read private key from " ++ privateKeyPath ++ ": " ++ e)
    | Except.ok key =>
        Except.ok ⟨host, port, username, none, some key,
          if passphrase ≠ "" then some passphrase else none⟩
  else
    Except.error "Either SSH_PASSWORD or SSH_PRIVATE_KEY_PATH must be provided"

/-- Association-list lookup modelling `connections.get(key)`. -/
def lookupConn {α : Type} (key : String) : List (String × α) → Option α
  | [] => none
  | (k, c) :: rest => if k = key then some c else lookupConn key rest

/-- One call of getSSHConnection (src/index.ts lines 95-106) with the
awaited factory outcome passed explicitly: a cache hit returns the cached
client and leaves the cache alone; on a miss the factory outcome is
awaited and only a successful open is inserted. Returns the call's result
and the cache afterwards. -/
def getSSHConnectionStep {α : Type} (cache : List (String × α)) (key : String)
    (factory : Except String α) : Except String α × List (String × α) :=
  match lookupConn key cache with
  | some c => (Except.ok c, cache)
  | none =>
    match factory with
    | Except.error e => (Except.error e, cache)
    | Except.ok c => (Except.ok c, (key, c) :: cache)

/-- Shared state for two concurrent getSSHConnection calls targeting the
same key: the set of cached keys, the number of createSSHConnection
invocations, and each call's program counter (0 = about to read the
cache, 1 = suspended at the await inside the miss branch, 2 = returned). -/
structure ConnRaceState where
  cache : List String
  opens : Nat
  pc1 : Nat
  pc2 : Nat
deriving DecidableEq

/-- One atomic step of a getSSHConnection call (src/index.ts lines
99-103): the synchronous segment reads the cache and, on a miss, starts
createSSHConnection (counted at the await); the resume segment after the
await inserts the opened connection into the cache. -/
def connTaskStep (key : String) (pc : Nat) (cache : List String) (opens : Nat) :
    Nat × List String × Nat :=
  if pc = 0 then
    if key ∈ cache then (2, cache, opens)
    else (1, cache, opens + 1)
  else if pc = 1 then (2, key :: cache, opens)
  else (pc, cache, opens)

/-- Run the two calls under an interleaving schedule: `true` steps the
first call, `false` the second. -/
def runConnSchedule (key : String) : List Bool → ConnRaceState → ConnRaceState
  | [], s => s
  | b :: rest, s =>
    if b then
      let r := connTaskStep key s.pc1 s.cache s.opens
      runConnSchedule key rest ⟨r.2.1, r.2.2, r.1, s.pc2⟩
    else
      let r := connTaskStep key s.pc2 s.cache s.opens
      runConnSchedule key rest ⟨r.2.1, r.2.2, s.pc1, r.1⟩

def hexDigit (n : Nat) : Char :=
  if n < 10 then Char.ofNat (48 + n) else Char.ofNat (87 + n)

/-- JSON string escaping of one character (code points below the
surrogate range, which covers every input considered here). -/
def jsonEscapeChar (c : Char) : String :=
  if c = '"' then "\\\""
  else if c = '\\' then "\\\\"
  else if c = '\x08' then "\\b"
  else if c = '\t' then "\\t"
  else if c = '\n' then "\\n"
  else if c = '\x0c' then "\\f"
  else if c = '\r' then "\\r"
  else if c.toNat < 32 then
    "\\u00" ++ String.singleton (hexDigit (c.toNat / 16))
      ++ String.singleton (hexDigit (c.toNat % 16))
  else String.singleton c

/-- JS `JSON.stringify` applied to a string value. -/
def jsonStringify (s : String) : String :=
  "\"" ++ String.join (s.toList.map jsonEscapeChar) ++ "\""

/-- The shell command built by the write_file tool (src/index.ts 492). -/
def buildWriteFileCommand (filePath content : String) : String :=
  "echo " ++ jsonStringify content ++ " > " ++ jsonStringify filePath

/-- Scanner mode for POSIX double-quote expansion. -/
inductive DqMode
  | plain
  | afterBackslash
  | afterDollar
  | inSubst (acc : String)
deriving DecidableEq

/-- One character of POSIX double-quote expansion. Inside double quotes a
backslash escapes dollar, backquote, double quote and backslash only;
`$(cmd)` is replaced by the oracle's output for `cmd` and the command is
recorded. -/
def dqStep (oracle : String → String) (st : String × List String × DqMode)
    (c : Char) : String × List String × DqMode :=
  match st with
  | (out, subs, DqMode.plain) =>
    if c = '\\' then (out, subs, DqMode.afterBackslash)
    else if c = '$' then (out, subs, DqMode.afterDollar)
    else (out.push c, subs, DqMode.plain)
  | (out, subs, DqMode.afterBackslash) =>
    if c = '$' ∨ c = Char.ofNat 96 ∨ c = '"' ∨ c = '\\' then
      (out.push c, subs, DqMode.plain)
    else ((out.push '\\').push c, subs, DqMode.plain)
  | (out, subs, DqMode.afterDollar) =>
    if c = '(' then (out, subs, DqMode.inSubst "")
    else if c = '\\' then (out.push '$', subs, DqMode.afterBackslash)
    else if c = '$' then (out.push '$', subs, DqMode.afterDollar)
    else ((out.push '$').push c, subs, DqMode.plain)
  | (out, subs, DqMode.inSubst acc) =>
    if c = ')' then (out ++ oracle acc, subs ++ [acc], DqMode.plain)
    else (out, subs, DqMode.inSubst (acc.push c))

def dqFinish (st : String × List String × DqMode) : String × List String :=
  match st with
  | (out, subs, DqMode.plain) => (out, subs)
  | (out, subs, DqMode.afterBackslash) => (out.push '\\', subs)
  | (out, subs, DqMode.afterDollar) => (out.push '$', subs)
  | (out, subs, DqMode.inSubst acc) => (out ++ "$(" ++ acc, subs)

/-- POSIX expansion of the body of a double-quoted shell word, returning
the expanded text and the list of command substitutions performed. -/
def dqExpand (oracle : String → String) (body : String) : String × List String :=
  dqFinish (body.toList.foldl (dqStep oracle) ("", [], DqMode.plain))

/-- Scan a double-quoted shell word whose opening quote has been
consumed: return the raw body and the characters after the closing
quote. -/
def scanDqBody : List Char → List Char → Option (List Char × List Char)
  | _, [] => none
  | acc, '\\' :: c :: rest => scanDqBody (acc ++ ['\\', c]) rest
  | acc, '"' :: rest => some (acc, rest)
  | acc, c :: rest => scanDqBody (acc ++ [c]) rest

/-- Execution by a POSIX shell of a command of the exact shape
`echo "W" > "P"`: expand both double-quoted words (command substitutions
run through the oracle) and write the expanded word plus the newline echo
appends to the expanded path. Returns the target path, the bytes written,
and the substituted commands in order. -/
def runEchoRedirect (oracle : String → String) (cmd : String) :
    Option (String × String × List String) :=
  let cs := cmd.toList
  if cs.take 6 = ("echo \"").toList then
    match scanDqBody [] (cs.drop 6) with
    | none => none
    | some (body1, rest1) =>
      if rest1.take 4 = (" > \"").toList then
        match scanDqBody [] (rest1.drop 4) with
        | none => none
        | some (body2, rest2) =>
          if rest2.isEmpty then
            let arg := dqExpand oracle (String.mk body1)
            let pathE := dqExpand oracle (String.mk body2)
            some (pathE.1, arg.1 ++ "\n", arg.2 ++ pathE.2)
          else none
      else none
  else none

/-- Substitution oracle for the counterexample runs: `whoami` prints
`root`. -/
def whoamiOracle : String → String :=
  fun c => if c = "whoami" then "root" else ""

/-- Events delivered on an exec channel, in arrival order. The code
registers handlers for the two data streams and for close; stream-end
carries no handler. -/
inductive ChanEvent
  | outData (s : String)
  | errData (s : String)
  | streamEnd
  | close (code : Int)
deriving DecidableEq

def isCloseEvent : ChanEvent → Bool
  | ChanEvent.close _ => true
  | _ => false

/-- executeRemoteCommand's handlers (src/index.ts lines 119-132): data
events append to the accumulators and the promise resolves at the first
close event with the accumulated text and the delivered code; without a
close event it never resolves. -/
def runExecEvents : List ChanEvent → String → String → Option (String × String × Int)
  | [], _, _ => none
  | ChanEvent.outData s :: rest, out, err => runExecEvents rest (out ++ s) err
  | ChanEvent.errData s :: rest, out, err => runExecEvents rest out (err ++ s)
  | ChanEvent.streamEnd :: rest, out, err => runExecEvents rest out err
  | ChanEvent.close code :: _, out, err => some (out, err, code)

/-- Stdout accumulated over a list of events, starting from `out`. -/
def outAcc : List ChanEvent → String → String
  | [], out => out
  | ChanEvent.outData s :: rest, out => outAcc rest (out ++ s)
  | _ :: rest, out => outAcc rest out

/-- Stderr accumulated over a list of events, starting from `err`. -/
def errAcc : List ChanEvent → String → String
  | [], err => err
  | ChanEvent.errData s :: rest, err => errAcc rest (err ++ s)
  | _ :: rest, err => errAcc rest err

/-- Result of one remote command execution. -/
structure ExecOutcome where
  stdout : String
  stderr : String
  exitCode : Int
deriving DecidableEq

/-- The five diagnostic commands of the `all` monitor kind, which is also
the switch's default branch. -/
def allMonitorCommands : List String :=
  ["uptime", "free -h", "df -h", "top -bn1 | head -10", "netstat -tuln | head -10"]

/-- system_monitor's switch over the monitor type (src/index.ts 558-581);
`all` and the default branch run the same five commands. -/
def monitorCommands (t : String) : List String :=
  if t = "cpu" then ["top -bn1 | head -20"]
  else if t = "memory" then ["free -h", "cat /proc/meminfo | head -10"]
  else if t = "disk" then ["df -h", "lsblk"]
  else if t = "network" then ["netstat -tuln", "ss -tuln"]
  else allMonitorCommands

/-- Promise.all result assembly: each completed sub-command delivers
(index, result) at some point in time; slot i of the results array holds
the result delivered for index i, regardless of arrival order. -/
def promiseAllSlots (n : Nat) (arrivals : List (Nat × ExecOutcome)) :
    List (Option ExecOutcome) :=
  (List.range n).map (fun i => (arrivals.find? (fun p => p.1 == i)).map Prod.snd)

/-- The labelled concatenation built by system_monitor (src/index.ts
587-589). -/
def labelledOutput (cmds : List String) (results : List ExecOutcome) : String :=
  String.intercalate "\n"
    ((cmds.zip results).map (fun p => "=== " ++ p.1 ++ " ===\n" ++ p.2.stdout ++ "\n"))

/-- The remote side of the executor, one oracle per operation; an error
value models a rejected promise with its stringified cause. -/
structure Executor where
  execCmd : String → Except String ExecOutcome
  readFile : String → Except String String
  uploadFile : String → String → Except String Unit
  downloadFile : String → String → Except String Unit

/-- One CallTool request: tool name plus argument lookups (`none` models
an absent argument). -/
structure ToolRequest where
  name : String
  argStr : String → Option String
  argBool : String → Option Bool

/-- Record of one executor invocation made while dispatching. -/
inductive ExecCall
  | exec (cmd : String)
  | read (path : String)
  | upload (localPath remotePath : String)
  | download (remotePath localPath : String)
deriving DecidableEq

/-- Promise.all over already-determined outcomes: the first error in list
order rejects the whole batch, otherwise all results are collected in
order. -/
def collectOk : List (Except String ExecOutcome) → Except String (List ExecOutcome)
  | [] => Except.ok []
  | Except.error e :: _ => Except.error e
  | Except.ok r :: rest =>
    match collectOk rest with
    | Except.error e => Except.error e
    | Except.ok rs => Except.ok (r :: rs)

/-- The CallTool dispatcher body (src/index.ts 453-601) before the
surrounding try/catch. The Except error carries the stringified thrown
error or rejection cause (a thrown `new Error(m)` stringifies as
`Error: m`); the list records every executor invocation made. -/
def callToolInner (ex : Executor) (req : ToolRequest) :
    Except String String × List ExecCall :=
  if req.name = "execute_command" then
    let command := jsString (req.argStr "command")
    if command = "" then (Except.error "Error: Command is required", [])
    else
      match ex.execCmd command with
      | Except.error e => (Except.error e, [ExecCall.exec command])
      | Except.ok r =>
        (Except.ok ("命令: " ++ command ++ "\n退出码: " ++ toString r.exitCode
            ++ "\n\n标准输出:\n" ++ r.stdout ++ "\n\n标准错误:\n" ++ r.stderr),
          [ExecCall.exec command])
  else if req.name = "read_file" then
    let filePath := jsString (req.argStr "path")
    if filePath = "" then (Except.error "Error: File path is required", [])
    else
      match ex.readFile filePath with
      | Except.error e => (Except.error e, [ExecCall.read filePath])
      | Except.ok content =>
        (Except.ok ("文件: " ++ filePath ++ "\n\n内容:\n" ++ content),
          [ExecCall.read filePath])
  else if req.name = "write_file" then
    let filePath := jsString (req.argStr "path")
    let content := jsString (req.argStr "content")
    if filePath = "" ∨ content = "" then
      (Except.error "Error: File path and content are required", [])
    else
      let command := buildWriteFileCommand filePath content
      match ex.execCmd command with
      | Except.error e => (Except.error e, [ExecCall.exec command])
      | Except.ok r =>
        if r.exitCode = 0 then
          (Except.ok ("文件 " ++ filePath ++ " 写入成功"), [ExecCall.exec command])
        else
          (Except.error ("Error: 写入文件失败: " ++ r.stderr), [ExecCall.exec command])
  else if req.name = "upload_file" then
    let localPath := jsString (req.argStr "local_path")
    let remotePath := jsString (req.argStr "remote_path")
    if localPath = "" ∨ remotePath = "" then
      (Except.error "Error: Local path and remote path are required", [])
    else
      match ex.uploadFile localPath remotePath with
      | Except.error e => (Except.error e, [ExecCall.upload localPath remotePath])
      | Except.ok _ =>
        (Except.ok ("文件从 " ++ localPath ++ " 上传到 " ++ remotePath ++ " 成功"),
          [ExecCall.upload localPath remotePath])
  else if req.name = "download_file" then
    let remotePath := jsString (req.argStr "remote_path")
    let localPath := jsString (req.argStr "local_path")
    if remotePath = "" ∨ localPath = "" then
      (Except.error "Error: Remote path and local path are required", [])
    else
      match ex.downloadFile remotePath localPath with
      | Except.error e => (Except.error e, [ExecCall.download remotePath localPath])
      | Except.ok _ =>
        (Except.ok ("文件从 " ++ remotePath ++ " 下载到 " ++ localPath ++ " 成功"),
          [ExecCall.download remotePath localPath])
  else if req.name = "list_directory" then
    let dirPath := jsOr (req.argStr "path") "."
    let detailed := jsBool (req.argBool "detailed")
    let command :=
      if detailed then "ls -la " ++ jsonStringify dirPath
      else "ls " ++ jsonStringify dirPath
    match ex.execCmd command with
    | Except.error e => (Except.error e, [ExecCall.exec command])
    | Except.ok r =>
      (Except.ok ("目录: " ++ dirPath ++ "\n\n" ++ r.stdout), [ExecCall.exec command])
  else if req.name = "system_monitor" then
    let monitorType := jsOr (req.argStr "type") "all"
    let commands := monitorCommands monitorType
    match collectOk (commands.map ex.execCmd) with
    | Except.error e => (Except.error e, commands.map ExecCall.exec)
    | Except.ok results =>
      (Except.ok ("系统监控 (" ++ monitorType ++ "):\n\n"
          ++ labelledOutput commands results),
        commands.map ExecCall.exec)
  else (Except.error ("Error: Unknown tool: " ++ req.name), [])

/-- The try/catch around the dispatcher body (src/index.ts 452, 602-610):
every inner failure becomes an error-flagged text response and nothing
propagates out of the handler. -/
def callTool (ex : Executor) (req : ToolRequest) : String × Bool :=
  match (callToolInner ex req).1 with
  | Except.error e => ("错误: " ++ e, true)
  | Except.ok t => (t, false)

/-- Fixture: executor whose readFile rejects, as for a nonexistent path. -/
def failReadExecutor : Executor :=
  ⟨fun _ => Except.ok ⟨"", "", 0⟩,
   fun p => Except.error ("Error: ENOENT: no such file " ++ p),
   fun _ _ => Except.ok (), fun _ _ => Except.ok ()⟩

/-- Fixture: a read_file request for a nonexistent path. -/
def readNopeRequest : ToolRequest :=
  ⟨"read_file", fun k => if k = "path" then some "/nope" else none, fun _ => none⟩

/-- Fixture: pure result table for the monitor witnesses. -/
def monResW : String → ExecOutcome := fun c => ⟨"out:" ++ c, "", 0⟩

/-- Fixture: executor whose every command succeeds with `monResW`. -/
def monExecW : Executor :=
  ⟨fun c => Except.ok (monResW c), fun _ => Except.error "x",
   fun _ _ => Except.ok (), fun _ _ => Except.ok ()⟩

/-- Fixture: the two memory-monitor completions arriving out of order. -/
def memArrivalsW : List (Nat × ExecOutcome) :=
  [(1, monResW "cat /proc/meminfo | head -10"), (0, monResW "free -h")]

/-- Fixture: event trace for the close-gating witness. -/
def evsPreW : List ChanEvent :=
  [ChanEvent.outData "hello ", ChanEvent.errData "oops", ChanEvent.streamEnd,
   ChanEvent.outData "world"]

/-- Fixture: environment with SSH_HOST missing. -/
def envMissingHost : SSHEnv := ⟨none, none, some "root", some "pw", none, none⟩

/-- Fixture: complete password-based environment. -/
def envGood : SSHEnv := ⟨some "h", some "2222", some "root", some "pw", none, none⟩

/-- Fixture: key-file reader that always fails. -/
def readerFail : String → Except String String := fun _ => Except.error "ENOENT"

/-- Claim C1 (refuted): for the content `a"b$(whoami)` the write_file
tool builds `echo "a\"b$(whoami)" > "/tmp/x"`; a POSIX shell
command-substitutes `whoami` inside the double quotes, so the command
runs `whoami` and writes `a"broot` plus a newline instead of the literal
content: JSON.stringify quoting is not injection-safe. -/
theorem writeFile_command_substitution_executes :
    buildWriteFileCommand "/tmp/x" "a\"b$(whoami)"
        = "echo \"a\\\"b$(whoami)\" > \"/tmp/x\"" ∧
    runEchoRedirect whoamiOracle (buildWriteFileCommand "/tmp/x" "a\"b$(whoami)")
        = some ("/tmp/x", "a\"broot\n", ["whoami"]) ∧
    "a\"broot\n" ≠ "a\"b$(whoami)" ++ "\n" :=
  ⟨by decide, by decide, by decide⟩

/-- Claim C2 (refuted): starting from an empty cache, the interleaving
read-read-open-open of two concurrent getSSHConnection calls for the same
key invokes createSSHConnection twice, because both calls miss the cache
before either inserts; either serial order invokes it once. -/
theorem getSSHConnection_double_open :
    (runConnSchedule "h:22:u" [true, false, true, false] ⟨[], 0, 0, 0⟩).opens = 2 ∧
    (runConnSchedule "h:22:u" [true, true, false, false] ⟨[], 0, 0, 0⟩).opens = 1 :=
  ⟨by decide, by decide⟩

/-- Claim C4 counterexample: SSH_PORT set to the non-numeric string "abc"
parses to NaN (modelled `none`), which is not a valid port number — no
sane fallback is applied. -/
theorem ssh_port_non_numeric_is_nan : resolvePort (some "abc") = none := by decide

/-- Claim C4 (amended): the port is 22 whenever SSH_PORT is unset or
empty; any other value goes through JS parseInt unchanged, so a value
with a leading decimal number parses to that number while a fully
non-numeric value yields NaN rather than a valid fallback port. -/
theorem resolvePort_amended :
    resolvePort none = some 22 ∧ resolvePort (some "") = some 22 ∧
    (∀ s : String, s ≠ "" → resolvePort (some s) = jsParseInt s) ∧
    resolvePort (some "abc") = none ∧ resolvePort (some "2222") = some 2222 := by
  refine ⟨by decide, by decide, ?_, by decide, by decide⟩
  intro s hs
  unfold resolvePort jsOr
  simp [hs]

/-- Witness for the amended C4 at a concrete non-empty port string. -/
theorem resolvePort_amended_witness : resolvePort (some "abc") = jsParseInt "abc" :=
  resolvePort_amended.2.2.1 "abc" (by decide)

lemma runExecEvents_no_close (evs : List ChanEvent) :
    ∀ out err, evs.any isCloseEvent = false → runExecEvents evs out err = none := by
  induction evs with
  | nil => intro out err _; rfl
  | cons e rest ih =>
    intro out err h
    cases e with
    | outData s =>
      simp only [List.any_cons, Bool.or_eq_false_iff] at h
      simpa only [runExecEvents] using ih (out ++ s) err h.2
    | errData s =>
      simp only [List.any_cons, Bool.or_eq_false_iff] at h
      simpa only [runExecEvents] using ih out (err ++ s) h.2
    | streamEnd =>
      simp only [List.any_cons, Bool.or_eq_false_iff] at h
      simpa only [runExecEvents] using ih out err h.2
    | close code => simp [isCloseEvent] at h

lemma runExecEvents_append_close (pre : List ChanEvent) (code : Int)
    (post : List ChanEvent) :
    ∀ out err, pre.any isCloseEvent = false →
      runExecEvents (pre ++ ChanEvent.close code :: post) out err
        = some (outAcc pre out, errAcc pre err, code) := by
  induction pre with
  | nil => intro out err _; rfl
  | cons e rest ih =>
    intro out err h
    cases e with
    | outData s =>
      simp only [List.any_cons, Bool.or_eq_false_iff] at h
      simpa only [List.cons_append, runExecEvents, outAcc, errAcc]
        using ih (out ++ s) err h.2
    | errData s =>
      simp only [List.any_cons, Bool.or_eq_false_iff] at h
      simpa only [List.cons_append, runExecEvents, outAcc, errAcc]
        using ih out (err ++ s) h.2
    | streamEnd =>
      simp only [List.any_cons, Bool.or_eq_false_iff] at h
      simpa only [List.cons_append, runExecEvents, outAcc, errAcc]
        using ih out err h.2
    | close c => simp [isCloseEvent] at h

/-- Claim C5: executeRemoteCommand resolves only at the channel's close
event — a trace without a close event (even one containing stream-end
signals) never resolves — and on the first close event it resolves with
exactly the delivered exit code and the stdout and stderr accumulated so
far. -/
theorem executeRemoteCommand_close_gated :
    (∀ evs out err, evs.any isCloseEvent = false →
      runExecEvents evs out err = none) ∧
    (∀ pre code post, pre.any isCloseEvent = false →
      runExecEvents (pre ++ ChanEvent.close code :: post) "" ""
        = some (outAcc pre "", errAcc pre "", code)) :=
  ⟨fun evs out err h => runExecEvents_no_close evs out err h,
   fun pre code post h => runExecEvents_append_close pre code post "" "" h⟩

/-- Witness for C5 at a concrete trace with exit code 127. -/
theorem executeRemoteCommand_close_gated_witness :
    runExecEvents [ChanEvent.outData "x", ChanEvent.streamEnd] "" "" = none ∧
    runExecEvents (evsPreW ++ ChanEvent.close 127 :: []) "" ""
      = some ("hello world", "oops", 127) :=
  ⟨executeRemoteCommand_close_gated.1
      [ChanEvent.outData "x", ChanEvent.streamEnd] "" "" (by decide),
   executeRemoteCommand_close_gated.2 evsPreW 127 [] (by decide)⟩

/-- Claim C7: when the factory fails for an uncached key, the error is
returned to the caller, the cache is left unchanged (no entry stored),
and a subsequent call for the same key runs establishment again and
caches the newly opened session. -/
theorem connection_failure_not_cached {α : Type} (cache : List (String × α))
    (key : String) (e : String) (hmiss : lookupConn key cache = none) :
    (getSSHConnectionStep cache key (Except.error e)).1 = Except.error e ∧
    (getSSHConnectionStep cache key (Except.error e)).2 = cache ∧
    ∀ c : α,
      (getSSHConnectionStep (getSSHConnectionStep cache key (Except.error e)).2 key
          (Except.ok c)).1 = Except.ok c ∧
      (getSSHConnectionStep (getSSHConnectionStep cache key (Except.error e)).2 key
          (Except.ok c)).2 = (key, c) :: cache := by
  simp [getSSHConnectionStep, hmiss]

/-- Witness for C7 on an empty cache. -/
theorem connection_failure_not_cached_witness :
    (getSSHConnectionStep ([] : List (String × Nat)) "h:22:u"
        (Except.error "ECONNREFUSED")).1 = Except.error "ECONNREFUSED" ∧
    (getSSHConnectionStep ([] : List (String × Nat)) "h:22:u"
        (Except.error "ECONNREFUSED")).2 = [] ∧
    (getSSHConnectionStep ((getSSHConnectionStep ([] : List (String × Nat)) "h:22:u"
        (Except.error "ECONNREFUSED")).2) "h:22:u" (Except.ok 7)).1 = Except.ok 7 :=
  ⟨(connection_failure_not_cached [] "h:22:u" "ECONNREFUSED" rfl).1,
   (connection_failure_not_cached [] "h:22:u" "ECONNREFUSED" rfl).2.1,
   ((connection_failure_not_cached [] "h:22:u" "ECONNREFUSED" rfl).2.2 7).1⟩

/-- Claim C3 (refuted): an execute_command request with no command
argument is not rejected before a remote call: `String(undefined)` is the
non-empty string "undefined", so validation passes and the dispatcher
invokes the executor with the remote command "undefined". -/
theorem execute_command_missing_arg_calls_remote (ex : Executor) :
    (callToolInner ex ⟨"execute_command", fun _ => none, fun _ => none⟩).2
      = [ExecCall.exec "undefined"] := by
  cases h : ex.execCmd "undefined" <;> simp [callToolInner, jsString, h]

/-- Claim C8: the dispatcher's try/catch boundary turns every failure of
the dispatch body into an error-flagged response whose text carries the
original cause, and a successful body into a non-error response; in
particular a read_file whose executor read rejects yields an error-flagged
response rather than an escaping failure. -/
theorem dispatcher_catches_failures (ex : Executor) (req : ToolRequest) :
    (∀ e, (callToolInner ex req).1 = Except.error e →
      callTool ex req = ("错误: " ++ e, true)) ∧
    (∀ t, (callToolInner ex req).1 = Except.ok t → callTool ex req = (t, false)) ∧
    (∀ p e, req.name = "read_file" → req.argStr "path" = some p → p ≠ "" →
      ex.readFile p = Except.error e → callTool ex req = ("错误: " ++ e, true)) := by
  refine ⟨?_, ?_, ?_⟩
  · intro e h
    unfold callTool
    rw [h]
  · intro t h
    unfold callTool
    rw [h]
  · intro p e hn hp hpne hr
    unfold callTool callToolInner
    simp [hn, hp, jsString, hpne, hr]

/-- Witness for C8: read_file on a nonexistent path against a rejecting
executor returns the error-flagged response. -/
theorem dispatcher_catches_failures_witness :
    callTool failReadExecutor readNopeRequest
      = ("错误: Error: ENOENT: no such file /nope", true) :=
  (dispatcher_catches_failures failReadExecutor readNopeRequest).2.2 "/nope"
    "Error: ENOENT: no such file /nope" rfl rfl (by decide) rfl

lemma findArrival (arrivals : List (Nat × ExecOutcome)) (f : Nat → ExecOutcome)
    (h2 : ∀ p ∈ arrivals, p.2 = f p.1) (i : Nat) (h1 : (i, f i) ∈ arrivals) :
    arrivals.find? (fun p => p.1 == i) = some (i, f i) := by
  cases h : arrivals.find? (fun p => p.1 == i) with
  | none =>
    have := List.find?_eq_none.mp h (i, f i) h1
    simp at this
  | some p =>
    have hp := List.find?_some h
    have hm : p ∈ arrivals := List.mem_of_find?_eq_some h
    have hfst : p.1 = i := by simpa using hp
    have hsnd : p.2 = f p.1 := h2 p hm
    cases p
    simp_all

lemma range_map_getD {α β : Type} (l : List α) (d : α) (g : α → β) :
    (List.range l.length).map (fun i => g (l.getD i d)) = l.map g := by
  induction l with
  | nil => rfl
  | cons a t ih =>
    rw [List.length_cons, List.range_succ_eq_map]
    simp only [List.map_cons, List.map_map]
    refine congrArg₂ List.cons rfl ?_
    have hc : ((fun i => g ((a :: t).getD i d)) ∘ Nat.succ)
        = (fun i => g (t.getD i d)) := rfl
    rw [hc, ih]

/-- Claim C6: for every monitor kind, Promise.all assembles the results
by command-list index, so for any arrival order of the concurrent
completions the assembled slots equal the in-order results — the labelled
output is deterministic and independent of completion order — and the
memory kind runs exactly the two fixed memory-diagnostic commands. -/
theorem monitor_order_deterministic (t : String) (exec : String → ExecOutcome)
    (arrivals : List (Nat × ExecOutcome))
    (h1 : ∀ i, i < (monitorCommands t).length →
      (i, exec ((monitorCommands t).getD i "")) ∈ arrivals)
    (h2 : ∀ p ∈ arrivals, p.2 = exec ((monitorCommands t).getD p.1 "")) :
    promiseAllSlots (monitorCommands t).length arrivals
      = ((monitorCommands t).map exec).map some ∧
    monitorCommands "memory" = ["free -h", "cat /proc/meminfo | head -10"] := by
  constructor
  · unfold promiseAllSlots
    have hpt : ∀ i ∈ List.range (monitorCommands t).length,
        (arrivals.find? (fun p => p.1 == i)).map Prod.snd
          = some (exec ((monitorCommands t).getD i "")) := by
      intro i hi
      rw [findArrival arrivals (fun j => exec ((monitorCommands t).getD j ""))
        h2 i (h1 i (List.mem_range.mp hi))]
      rfl
    rw [List.map_congr_left hpt, List.map_map]
    exact range_map_getD (monitorCommands t) "" (fun x => some (exec x))
  · rfl

/-- Witness for C6: the two memory completions arrive in reversed order
and the assembled slots still follow command-list order. -/
theorem monitor_order_deterministic_witness :
    promiseAllSlots (monitorCommands "memory").length memArrivalsW
      = ((monitorCommands "memory").map monResW).map some ∧
    monitorCommands "memory" = ["free -h", "cat /proc/meminfo | head -10"] :=
  monitor_order_deterministic "memory" monResW memArrivalsW (by decide) (by decide)

lemma monitorCommands_default (t : String) (hcpu : t ≠ "cpu") (hmem : t ≠ "memory")
    (hdisk : t ≠ "disk") (hnet : t ≠ "network") :
    monitorCommands t = allMonitorCommands := by
  simp [monitorCommands, hcpu, hmem, hdisk, hnet]

lemma collectOk_map_ok (ex : Executor) (f : String → ExecOutcome)
    (hex : ∀ c, ex.execCmd c = Except.ok (f c)) (l : List String) :
    collectOk (l.map ex.execCmd) = Except.ok (l.map f) := by
  induction l with
  | nil => rfl
  | cons a rest ih => simp [collectOk, hex a, ih]

/-- Claim C10: for every monitor type other than cpu, memory, disk and
network — arbitrary unrecognized strings included — system_monitor does
not reject the request: it runs the five-command all list and returns the
concatenated labelled output. -/
theorem system_monitor_unknown_type_runs_all (t : String) (ex : Executor)
    (f : String → ExecOutcome) (hcpu : t ≠ "cpu") (hmem : t ≠ "memory")
    (hdisk : t ≠ "disk") (hnet : t ≠ "network")
    (hex : ∀ c, ex.execCmd c = Except.ok (f c)) :
    callToolInner ex ⟨"system_monitor", fun k => if k = "type" then some t else none,
        fun _ => none⟩
      = (Except.ok ("系统监控 (" ++ jsOr (some t) "all" ++ "):\n\n"
          ++ labelledOutput allMonitorCommands (allMonitorCommands.map f)),
        allMonitorCommands.map ExecCall.exec) := by
  have hmc : monitorCommands (jsOr (some t) "all") = allMonitorCommands := by
    by_cases ht : t = ""
    · subst ht; rfl
    · rw [show jsOr (some t) "all" = t by simp [jsOr, ht]]
      exact monitorCommands_default t hcpu hmem hdisk hnet
  simp only [callToolInner]
  simp only [show ("system_monitor" : String) ≠ "execute_command" from by decide,
    show ("system_monitor" : String) ≠ "read_file" from by decide,
    show ("system_monitor" : String) ≠ "write_file" from by decide,
    show ("system_monitor" : String) ≠ "upload_file" from by decide,
    show ("system_monitor" : String) ≠ "download_file" from by decide,
    show ("system_monitor" : String) ≠ "list_directory" from by decide,
    if_neg, if_pos, reduceIte]
  rw [hmc, collectOk_map_ok ex f hex allMonitorCommands]

/-- Witness for C10 at the unrecognized monitor type "bogus". -/
theorem system_monitor_unknown_type_runs_all_witness :
    callToolInner monExecW ⟨"system_monitor",
        fun k => if k = "type" then some "bogus" else none, fun _ => none⟩
      = (Except.ok ("系统监控 (bogus):\n\n"
          ++ labelledOutput allMonitorCommands (allMonitorCommands.map monResW)),
        allMonitorCommands.map ExecCall.exec) := by
  have h := system_monitor_unknown_type_runs_all "bogus" monExecW monResW
    (by decide) (by decide) (by decide) (by decide) (fun c => rfl)
  simpa using h

/-- Claim C9: getSSHConfig fails exactly when host or username is absent
(unset or empty), when neither a password nor a private-key path is
supplied, or when key-file authentication is selected and the key file
cannot be read; otherwise it returns the supplied host, the resolved
port, the username, and password or private-key authentication
material. -/
theorem getSSHConfig_spec (env : SSHEnv)
    (readKeyFile : String → Except String String) :
    (isErr (getSSHConfig env readKeyFile) = true ↔
      (env.host.getD "" = "" ∨ env.username.getD "" = "" ∨
        (env.password.getD "" = "" ∧ env.privateKeyPath.getD "" = "") ∨
        (env.password.getD "" = "" ∧ env.privateKeyPath.getD "" ≠ "" ∧
          isErr (readKeyFile (env.privateKeyPath.getD "")) = true))) ∧
    (∀ cfg, getSSHConfig env readKeyFile = Except.ok cfg →
      cfg.host = env.host.getD "" ∧ cfg.port = resolvePort env.port ∧
      cfg.username = env.username.getD "" ∧
      (cfg.password.isSome ∨ cfg.privateKey.isSome)) := by
  unfold getSSHConfig
  by_cases hh : env.host.getD "" = "" <;>
    by_cases hu : env.username.getD "" = "" <;>
      by_cases hp : env.password.getD "" = "" <;>
        by_cases hk : env.privateKeyPath.getD "" = "" <;>
          cases hr : readKeyFile (env.privateKeyPath.getD "") <;>
            simp_all [isErr]

/-- Witness for C9: a missing SSH_HOST fails, and a password
configuration resolves to the expected descriptor fields. -/
theorem getSSHConfig_spec_witness :
    isErr (getSSHConfig envMissingHost readerFail) = true ∧
    (SSHConfig.mk "h" (some 2222) "root" (some "pw") none none).host
      = envGood.host.getD "" :=
  ⟨(getSSHConfig_spec envMissingHost readerFail).1.mpr (Or.inl rfl),
   ((getSSHConfig_spec envGood readerFail).2
      (SSHConfig.mk "h" (some 2222) "root" (some "pw") none none) rfl).1⟩
